import Mathlib

/-!
# Verification of the Saleorder order-grouping and enrichment pipeline

Shallow embedding of the core pipeline of the repository:

* `src/api/shared/sap_sales_order.py` — `create_sales_orders`,
  `call_bapi_salesorder_create`, `format_partner_number`;
* `src/api/shared/sap_equipment.py` — `enrich_equipment_data`,
  `call_bapi_equi_details`, `call_z_matreq_cost_center`;
* `src/api/shared/config.py` — `PLANT_CONFIG`, fixed business constants,
  `get_plant_config`.

Modelling conventions:

* A Python row dictionary becomes the structure `Row`.  Fields that the
  source reads with `row.get(key, "")` (or a truthiness test against `None`)
  become plain `String` fields where the empty string stands for an absent
  key — the source never distinguishes absent from `""` for those keys.
  The two fields read with a non-empty default (`dist_channel`, default
  `"99"`, and `division`, default `"01"`) become `Option String` so the
  default is applied exactly where the source applies it.
* `material_qty` goes through Python `float(...)`; quantities are modelled
  as `Rat` (the source only compares against 0 and copies the value).
* Backend RPC calls (`conn.call`) are oracles passed in as function
  arguments; an oracle answer is either a structured response or a raised
  exception carrying its message (`str(e)`).  All embedded functions are
  total Lean functions: exception control flow in the source becomes
  explicit `Except`/sum-of-cases data flow here.
* The Python string methods the source uses (`strip`, `upper`, `zfill`,
  `startswith`, `isdigit`, slicing) are modelled by the character-list
  functions `pyStrip`, `pyUpper`, `zfill`, `pyStartsWith`, `pyIsdigit`,
  `pyTake` below, so that every embedded function evaluates inside the
  kernel on concrete inputs.
-/

namespace Saleorder

/-- Python `str.strip()` with no argument: remove whitespace from both
ends. -/
def pyStrip (s : String) : String :=
  String.mk (((s.data.dropWhile Char.isWhitespace).reverse.dropWhile
    Char.isWhitespace).reverse)

/-- Python `str.startswith(pre)`. -/
def pyStartsWith (s pre : String) : Bool :=
  pre.data.isPrefixOf s.data

/-- Python slicing `s[:n]`. -/
def pyTake (s : String) (n : Nat) : String :=
  String.mk (s.data.take n)

/-- Python `str.upper()` (ASCII; all plant codes in the source are
ASCII). -/
def pyUpper (s : String) : String :=
  String.mk (s.data.map Char.toUpper)

/-- Python `str.zfill(width)`: left-pad with the digit zero to `width`
characters, keeping a leading plus or minus sign in front of the padding. -/
def zfill (s : String) (width : Nat) : String :=
  if width ≤ s.length then s
  else
    let pad := String.mk (List.replicate (width - s.length) '0')
    match s.data with
    | c :: rest =>
      if c = '+' ∨ c = '-' then String.mk (c :: (pad.data ++ rest))
      else pad ++ s
    | [] => pad ++ s

/-- Python `str.isdigit` restricted to ASCII: non-empty and all digits. -/
def pyIsdigit (s : String) : Bool :=
  !(s == "") && s.data.all Char.isDigit

/-- Python `a or b` specialised to strings: `a` if non-empty, else `b`. -/
def pyOr (a b : String) : String :=
  if a = "" then b else a

/-! ## config.py -/

/-- `FIXED_DIST_CHANNEL` from `config.py`. -/
def FIXED_DIST_CHANNEL : String := "99"

/-- `FIXED_DIVISION` from `config.py`. -/
def FIXED_DIVISION : String := "01"

/-- `CONTROLLING_AREA` from `config.py`. -/
def CONTROLLING_AREA : String := "1000"

/-- `SALES_DOC_TYPE` from `config.py`. -/
def SALES_DOC_TYPE : String := "ZMTQ"

/-- One value of the `PLANT_CONFIG` dictionary in `config.py`. -/
structure PlantEntry where
  sales_org : String
  sold_to : String
  ship_to : String
deriving Repr, DecidableEq, Inhabited

/-- The `PLANT_CONFIG` table from `config.py`. -/
def PLANT_CONFIG : List (String × PlantEntry) :=
  [("US01", { sales_org := "US01", sold_to := "166", ship_to := "M0001001E" }),
   ("US65", { sales_org := "US65", sold_to := "1", ship_to := "M0001001XI" })]

/-- `get_plant_config` from `config.py`:
`PLANT_CONFIG.get(plant.upper(), {}) if plant else {}`.
`none` models the empty fallback dictionary. -/
def get_plant_config (plant : String) : Option PlantEntry :=
  if plant = "" then none else PLANT_CONFIG.lookup (pyUpper plant)

/-! ## The row dictionary -/

/-- A row dictionary as it flows through the pipeline.  Every field the
source ever reads is present; the empty string models an absent key (see
the module comment), except `dist_channel`/`division` which keep the
absent case explicit because the source reads them with defaults
`"99"`/`"01"`. -/
structure Row where
  equipment_id : String := ""
  material : String := ""
  material_qty : Rat := 0
  batch : String := ""
  row_number : Nat := 0
  plant : String := ""
  cost_center : String := ""
  company_code : String := ""
  sales_org : String := ""
  dist_channel : Option String := none
  division : Option String := none
  sold_to : String := ""
  ship_to : String := ""
  augru : String := ""
  cost_center_text : String := ""
  status : String := ""
  sales_order : String := ""
deriving Repr, DecidableEq, Inhabited

/-! ## sap_sales_order.py — grouping -/

/-- The grouping key — the f-string joining `augru`, `sold_to` and
`ship_to` with `|` — built in `create_sales_orders`. -/
def groupKey (r : Row) : String :=
  r.augru ++ "|" ++ r.sold_to ++ "|" ++ r.ship_to

/-- The rows of one group: the list the `defaultdict(list)` accumulates
under key `k`, in input order. -/
def groupOf (rows : List Row) (k : String) : List Row :=
  rows.filter fun r => groupKey r == k

/-- First-seen-order deduplication, carrying the set of keys already
seen: a key is emitted when it is met for the first time. -/
def dedupKeepFirstAux (seen : List String) : List String → List String
  | [] => []
  | k :: ks =>
    if k ∈ seen then dedupKeepFirstAux seen ks
    else k :: dedupKeepFirstAux (k :: seen) ks

/-- First-seen-order deduplication: the key iteration order of a Python
`dict` (insertion order, each key once). -/
def dedupKeepFirst (l : List String) : List String :=
  dedupKeepFirstAux [] l

/-- The group keys of `create_sales_orders`, in the order the
`defaultdict` iterates them (first-seen order). -/
def groupKeys (rows : List Row) : List String :=
  dedupKeepFirst (rows.map groupKey)

/-! ## sap_sales_order.py — the inner BAPI call -/

/-- One entry of the BAPI `RETURN` table.  `type_` models
`ret.get("TYPE")` (empty string for an absent key); `message` models the
`MESSAGE` key, kept optional because the source reads it with the
non-empty default `"Unknown error"`. -/
structure RetMsg where
  type_ : String := ""
  message : Option String := none
deriving Repr, DecidableEq, Inhabited

/-- The response of `BAPI_SALESORDER_CREATEFROMDAT2`:
`SALESDOCUMENT` (default `""`) and the `RETURN` table (default `[]`). -/
structure BapiResponse where
  salesdocument : String := ""
  ret : List RetMsg := []
deriving Repr, DecidableEq, Inhabited

/-- The `ORDER_HEADER_IN` structure built by `call_bapi_salesorder_create`.
`ord_reason` is `none` when the source omits the `ORD_REASON` key. -/
structure OrderHeader where
  doc_type : String
  sales_org : String
  distr_chan : String
  division : String
  purch_no_c : String
  ord_reason : Option String
deriving Repr, DecidableEq, Inhabited

/-- One entry of the `ORDER_PARTNERS` table. -/
structure Partner where
  partn_role : String
  partn_numb : String
deriving Repr, DecidableEq, Inhabited

/-- One entry of `ORDER_ITEMS_IN`.  `batch` is `none` when the source
omits the `BATCH` key. -/
structure OrderItem where
  itm_number : String
  material : String
  plant : String
  target_qty : Rat
  ref_1 : String
  batch : Option String
deriving Repr, DecidableEq, Inhabited

/-- One entry of `ORDER_ITEMS_INX`.  The constant flag fields
(`UPDATEFLAG="I"`, `MATERIAL="X"`, …) carry no information; only the item
number and the presence of the `BATCH` flag vary. -/
structure OrderItemX where
  itm_number : String
  batch_x : Bool
deriving Repr, DecidableEq, Inhabited

/-- One entry of `ORDER_SCHEDULES_IN`. -/
structure ScheduleLine where
  itm_number : String
  sched_line : String
  req_qty : Rat
deriving Repr, DecidableEq, Inhabited

/-- One entry of `ORDER_SCHEDULES_INX` (constant flags omitted). -/
structure ScheduleLineX where
  itm_number : String
  sched_line : String
deriving Repr, DecidableEq, Inhabited

/-- The four parallel per-item records appended in one iteration of the
item loop of `call_bapi_salesorder_create`. -/
structure OrderLine where
  item : OrderItem
  item_x : OrderItemX
  sched : ScheduleLine
  sched_x : ScheduleLineX
deriving Repr, DecidableEq, Inhabited

/-- `format_partner_number` from `sap_sales_order.py`. -/
def format_partner_number (partner : String) : String :=
  let partner := pyStrip partner
  if partner = "" then ""
  else if pyIsdigit partner then zfill partner 10
  else partner

/-- The filter of the item loop: a row is included iff its trimmed
material is non-empty and its quantity is strictly positive
(`if not material or qty <= 0: continue`). -/
def includeRow (row : Row) : Bool :=
  if pyStrip row.material = "" ∨ row.material_qty ≤ 0 then false else true

/-- The records built for one included row, given the running item
number (already incremented by 10). -/
def mkOrderLine (item_num : Nat) (row : Row) : OrderLine :=
  let item_str := zfill (toString item_num) 6
  { item := { itm_number := item_str
              material := pyStrip row.material
              plant := row.plant
              target_qty := row.material_qty
              ref_1 := pyTake row.equipment_id 12
              batch := if row.batch ≠ "" then some row.batch else none }
    item_x := { itm_number := item_str, batch_x := !(row.batch == "") }
    sched := { itm_number := item_str, sched_line := "0001", req_qty := row.material_qty }
    sched_x := { itm_number := item_str, sched_line := "0001" } }

/-- The item loop of `call_bapi_salesorder_create`: walk the rows of the group
carrying the running `item_num`, skipping excluded rows (which do not
advance the counter). -/
def buildOrderLines (item_num : Nat) : List Row → List OrderLine
  | [] => []
  | row :: rest =>
    if includeRow row then
      mkOrderLine (item_num + 10) row :: buildOrderLines (item_num + 10) rest
    else
      buildOrderLines item_num rest

/-- The `ORDER_HEADER_IN` built by `call_bapi_salesorder_create` from the
first row of the group and the user id. -/
def buildHeader (first_row : Row) (user_id : String) : OrderHeader :=
  { doc_type := SALES_DOC_TYPE
    sales_org := first_row.sales_org
    distr_chan := zfill (first_row.dist_channel.getD "99") 2
    division := zfill (first_row.division.getD "01") 2
    purch_no_c := pyTake user_id 35
    ord_reason := if first_row.augru ≠ "" then some first_row.augru else none }

/-- The `ORDER_PARTNERS` table built by `call_bapi_salesorder_create`. -/
def buildPartners (first_row : Row) : List Partner :=
  [{ partn_role := "AG", partn_numb := format_partner_number first_row.sold_to },
   { partn_role := "WE", partn_numb := format_partner_number first_row.ship_to }]

/-- The full request payload of one `BAPI_SALESORDER_CREATEFROMDAT2`
call.  (`ORDER_HEADER_INX` carries constant flags plus the presence of
`ORD_REASON`, which `header.ord_reason` already records.) -/
structure OrderRequest where
  header : OrderHeader
  partners : List Partner
  lines : List OrderLine
deriving Repr, DecidableEq, Inhabited

/-- The request-building half of `call_bapi_salesorder_create`.  The
source reads `rows[0]`; groups are never empty, `headI` covers the
impossible empty case. -/
def buildOrderRequest (rows : List Row) (user_id : String) : OrderRequest :=
  let first_row := rows.headI
  { header := buildHeader first_row user_id
    partners := buildPartners first_row
    lines := buildOrderLines 0 rows }

/-- `call_bapi_salesorder_create` from `sap_sales_order.py`, for a run in
which the backend answers the create call with `submit request` and no
call raises.  Returns the string result of the Python function paired
with whether `BAPI_TRANSACTION_COMMIT` was issued. -/
def call_bapi_salesorder_create (submit : OrderRequest → BapiResponse)
    (rows : List Row) (user_id : String) : String × Bool :=
  let result := submit (buildOrderRequest rows user_id)
  let so_number := pyStrip result.salesdocument
  match result.ret.find? (fun ret => ret.type_ == "E" || ret.type_ == "A") with
  | some ret => ("Error: " ++ ret.message.getD "Unknown error", false)
  | none =>
    if so_number ≠ "" then (so_number, true)
    else ("Error: No sales order number returned", false)

/-! ## sap_sales_order.py — the outer loop -/

/-- The observable behaviour of one `call_bapi_salesorder_create`
invocation as the outer loop of `create_sales_orders` sees it: a returned
string, or a raised exception carrying `str(e)`. -/
inductive BapiOutcome where
  | ok (so_number : String)
  | exn (msg : String)
deriving Repr, DecidableEq, Inhabited

/-- The success test of the outer loop:
`if so_number and not so_number.startswith("Error")`, an exception landing
in the `except` branch. -/
def groupCreated : BapiOutcome → Bool
  | .ok so_number =>
    if so_number ≠ "" ∧ ¬ (pyStartsWith so_number "Error" = true) then true else false
  | .exn _ => false

/-- The `(sales_order, status)` pair `create_sales_orders` writes into
every row of a group, as a function of the call outcome of that group. -/
def groupOutcome : BapiOutcome → String × String
  | .ok so_number =>
    if so_number ≠ "" ∧ ¬ (pyStartsWith so_number "Error" = true) then
      (so_number, "Created")
    else
      ("", if so_number = "" then "Error: Unknown" else so_number)
  | .exn msg => ("", "Error: " ++ msg)

/-- The in-place row mutation of the outer loop, functionally. -/
def applyOutcome (out : BapiOutcome) (row : Row) : Row :=
  { row with sales_order := (groupOutcome out).1, status := (groupOutcome out).2 }

/-- The dictionary returned by `create_sales_orders`. -/
structure CreateResult where
  success : Bool
  orders_created : Nat
  orders_failed : Nat
  groups_processed : Nat
  rows : List Row
deriving Repr, DecidableEq, Inhabited

/-- `create_sales_orders` from `sap_sales_order.py`, parametric in the
behaviour `bapi` of `call_bapi_salesorder_create` on each group (the
source calls it once per group; a deterministic oracle models that
single call). -/
def create_sales_orders (bapi : List Row → BapiOutcome) (rows : List Row) : CreateResult :=
  let keys := groupKeys rows
  let groups := keys.map (groupOf rows)
  { success := true
    orders_created := (groups.filter fun g => groupCreated (bapi g)).length
    orders_failed := (groups.filter fun g => !(groupCreated (bapi g))).length
    groups_processed := keys.length
    rows := (groups.map fun g => g.map (applyOutcome (bapi g))).flatten }

/-! ## sap_equipment.py -/

/-- The response of `BAPI_EQUI_DETAILS` as read by
`call_bapi_equi_details`: the `TYPE` of the `RETURN` structure (empty string
models an absent key) and `MESSAGE` (optional, read with default
`"Unknown error"`), and the `DATA_GENERAL_EXP` fields, each read with
default `""`. -/
structure EquiResponse where
  ret_type : String := ""
  ret_message : Option String := none
  planplant : String := ""
  maintplant : String := ""
  costcenter : String := ""
  companycode : String := ""
  bukrs : String := ""
deriving Repr, DecidableEq, Inhabited

/-- An answer of the backend to one `conn.call("BAPI_EQUI_DETAILS", ...)`:
a response, or a raised exception carrying `str(e)`. -/
inductive EquipCall where
  | ok (resp : EquiResponse)
  | exn (msg : String)
deriving Repr, DecidableEq, Inhabited

/-- The dictionary `call_bapi_equi_details` returns.  The error shape
`{error: msg}` has no data keys, so reading them with `.get(key, "")`
yields `""`: the data fields default to `""` in that shape. -/
structure EquipDict where
  error : Option String := none
  plant : String := ""
  cost_center : String := ""
  company_code : String := ""
deriving Repr, DecidableEq, Inhabited

/-- `call_bapi_equi_details` from `sap_equipment.py`.  The oracle `o1` is
keyed by the 18-character padded equipment id actually sent; a raised
`conn.call` exception propagates (this function has no handler). -/
def call_bapi_equi_details (o1 : String → EquipCall) (equipment_id : String) :
    Except String EquipDict :=
  let equip_padded := zfill equipment_id 18
  match o1 equip_padded with
  | .exn msg => .error msg
  | .ok result =>
    if result.ret_type = "E" ∨ result.ret_type = "A" then
      .ok { error := some (result.ret_message.getD "Unknown error") }
    else
      .ok { error := none
            plant := pyStrip (pyOr result.planplant result.maintplant)
            cost_center := pyStrip result.costcenter
            company_code := pyStrip (pyOr result.companycode result.bukrs) }

/-- One record of the `T_COST_CENTER` table, fields read with default
`""`. -/
structure CCRecord where
  aug : String := ""
  ltext : String := ""
deriving Repr, DecidableEq, Inhabited

/-- An answer of the backend to one `conn.call("Z_MATREQ_COST_CENTER", ...)`. -/
inductive CCCall where
  | ok (table : List CCRecord)
  | exn (msg : String)
deriving Repr, DecidableEq, Inhabited

/-- `call_z_matreq_cost_center` from `sap_equipment.py`: pads the cost
center to 10 characters, calls the backend (the oracle `o2` is keyed by
the padded cost center and the sales org; the remaining parameters are
the fixed constants), takes the first record of `T_COST_CENTER`, and
swallows every failure into the `("", "")` default.  Returns the
`(augru, ltext)` pair. -/
def call_z_matreq_cost_center (o2 : String → String → CCCall)
    (cost_center sales_org : String) : String × String :=
  let cc_padded := zfill cost_center 10
  match o2 cc_padded sales_org with
  | .exn _ => ("", "")
  | .ok [] => ("", "")
  | .ok (first_row :: _) => (pyStrip first_row.aug, pyStrip first_row.ltext)

/-- `plant.upper() if plant else ""` as computed in step 4 of the
enrichment loop. -/
def plantUpperOf (d : EquipDict) : String :=
  if d.plant = "" then "" else pyUpper d.plant

/-- `config.get("sales_org", plant_upper)` of the enrichment loop. -/
def salesOrgOf (d : EquipDict) : String :=
  match get_plant_config (plantUpperOf d) with
  | some c => c.sales_org
  | none => plantUpperOf d

/-- The successful tail of the enrichment loop body (everything after the
error check on `equip_data`): populate the master-data fields, derive the
plant-configuration fields, optionally call the cost-center lookup, and
set the status to `"Ready"`. -/
def enrichRowReady (o2 : String → String → CCCall) (row : Row) (equip_data : EquipDict) :
    Row :=
  let config := get_plant_config (plantUpperOf equip_data)
  let sales_org := salesOrgOf equip_data
  let al :=
    if equip_data.cost_center ≠ "" ∧ sales_org ≠ "" then
      call_z_matreq_cost_center o2 equip_data.cost_center sales_org
    else
      ("", "")
  { row with
    plant := equip_data.plant
    cost_center := equip_data.cost_center
    company_code := equip_data.company_code
    sales_org := sales_org
    dist_channel := some FIXED_DIST_CHANNEL
    division := some FIXED_DIVISION
    sold_to := (config.map PlantEntry.sold_to).getD ""
    ship_to := (config.map PlantEntry.ship_to).getD ""
    augru := al.1
    cost_center_text := al.2
    status := "Ready" }

/-- One iteration of the loop body of `enrich_equipment_data`.  The
`try`/`except` of the source catches exactly the exception
`call_bapi_equi_details` can raise (the cost-center lookup swallows its
own failures, and the remaining statements are dictionary operations). -/
def enrichRow (o1 : String → EquipCall) (o2 : String → String → CCCall) (row : Row) :
    Row :=
  let equipment_id := pyStrip row.equipment_id
  if equipment_id = "" then
    { row with status := "Error: No Equipment ID" }
  else
    match call_bapi_equi_details o1 equipment_id with
    | .error msg => { row with status := "Error: " ++ msg }
    | .ok equip_data =>
      if equip_data.error.getD "" ≠ "" then
        { row with status := "Error: " ++ equip_data.error.getD "" }
      else
        enrichRowReady o2 row equip_data

/-- `enrich_equipment_data` from `sap_equipment.py`: every row is
processed by the loop body and appended to the output. -/
def enrich_equipment_data (o1 : String → EquipCall) (o2 : String → String → CCCall)
    (rows : List Row) : List Row :=
  rows.map (enrichRow o1 o2)

/-! ## Helper definitions and concrete fixtures -/

/-- A row with the outcome fields blanked: the part of a row that
`create_sales_orders` never writes. -/
def stripOutcome (r : Row) : Row :=
  { r with sales_order := "", status := "" }

/-- Reference rendering of the item loop on an already-filtered list:
the `i`-th line carries item number `n + (i+1)*10`.  Used to state and
prove the numbering law of `buildOrderLines`. -/
def numberLines (n : Nat) : List Row → List OrderLine
  | [] => []
  | r :: rs => mkOrderLine (n + 10) r :: numberLines (n + 10) rs

/-- Fixture: two rows sharing one grouping key. -/
def rowsA : List Row :=
  [{ augru := "A1", sold_to := "1", ship_to := "2" },
   { augru := "A1", sold_to := "1", ship_to := "2", material := "M1", material_qty := 1 }]

/-- Fixture: a backend that accepts every group with order number `SO1`. -/
def bapiOk : List Row → BapiOutcome := fun _ => .ok "SO1"

/-- Fixture: the first row of `rowsA` after a successful run. -/
def rowA1 : Row :=
  { augru := "A1", sold_to := "1", ship_to := "2", status := "Created", sales_order := "SO1" }

/-- Fixture: the second row of `rowsA` after a successful run. -/
def rowA2 : Row :=
  { augru := "A1", sold_to := "1", ship_to := "2", material := "M1", material_qty := 1,
    status := "Created", sales_order := "SO1" }

/-- Fixture: two rows whose `(augru, sold_to, ship_to)` triples differ
but whose concatenated grouping keys collide (both `"a|b|c|d"`). -/
def rowsPipe : List Row :=
  [{ augru := "a|b", sold_to := "c", ship_to := "d" },
   { augru := "a", sold_to := "b|c", ship_to := "d" }]

/-- Fixture: two rows in two different groups. -/
def rowsB : List Row :=
  [{ augru := "X" }, { augru := "Y", material := "M", material_qty := 1 }]

/-- Fixture: a backend that raises `boom` on the `X` group and accepts
every other group. -/
def bapiB : List Row → BapiOutcome := fun g =>
  if (g.map Row.augru).contains "X" then .exn "boom" else .ok "SO9"

/-- Fixture: the `X`-group row of `rowsB` after the failed run. -/
def rowB1 : Row := { augru := "X", sales_order := "", status := "Error: boom" }

/-- Fixture: a backend response whose assigned order number itself
starts with `Error`, with no error message in the `RETURN` table. -/
def submitErr : OrderRequest → BapiResponse := fun _ => { salesdocument := "Error999", ret := [] }

/-- Fixture: the view the outer loop has of `call_bapi_salesorder_create`
running against `submitErr`. -/
def bapiErr : List Row → BapiOutcome := fun g =>
  .ok (call_bapi_salesorder_create submitErr g "u1").1

/-- Fixture: a one-row, one-group input. -/
def rowsC : List Row := [{ augru := "Z" }]

/-- Fixture: the row of `rowsC` after the `Error999` run. -/
def rowC1 : Row := { augru := "Z", sales_order := "", status := "Error999" }

/-- Fixture: first row of the spec example. -/
def rowEx1 : Row :=
  { equipment_id := "123", material := "M1", material_qty := 5,
    augru := "A1", sold_to := "1", ship_to := "2" }

/-- Fixture: second (zero-quantity) row of the spec example. -/
def rowEx2 : Row :=
  { equipment_id := "124", material := "M2", material_qty := 0,
    augru := "A1", sold_to := "1", ship_to := "2" }

/-- Fixture: the backend of the spec example: order number `4500000123`, no
return messages. -/
def submitEx : OrderRequest → BapiResponse := fun _ => { salesdocument := "4500000123", ret := [] }

/-- Fixture: the view the outer loop has of that same backend. -/
def bapiEx : List Row → BapiOutcome := fun g =>
  .ok (call_bapi_salesorder_create submitEx g "requester").1

/-- Fixture: an equipment oracle that always answers with plant `US01`
and cost center `CC1`. -/
def equipOracleA : String → EquipCall := fun _ =>
  .ok { planplant := "US01", costcenter := "CC1" }

/-- Fixture: a cost-center oracle that always raises. -/
def ccOracleBoom : String → String → CCCall := fun _ _ => .exn "boom"

/-- Fixture: an equipment oracle that always raises. -/
def equipOracleExn : String → EquipCall := fun _ => .exn "down"

theorem mem_dedupKeepFirstAux {a : String} {seen l} :
    a ∈ dedupKeepFirstAux seen l ↔ a ∈ l ∧ a ∉ seen := by
  induction l generalizing seen with
  | nil => simp [dedupKeepFirstAux]
  | cons k ks ih =>
    by_cases hk : k ∈ seen
    · simp only [dedupKeepFirstAux, if_pos hk, ih, List.mem_cons]
      constructor
      · rintro ⟨h1, h2⟩; exact ⟨Or.inr h1, h2⟩
      · rintro ⟨h1 | h1, h2⟩
        · exact absurd (h1 ▸ hk) h2
        · exact ⟨h1, h2⟩
    · simp only [dedupKeepFirstAux, if_neg hk, List.mem_cons, ih]
      constructor
      · rintro (rfl | ⟨h1, h2⟩)
        · exact ⟨Or.inl rfl, hk⟩
        · exact ⟨Or.inr h1, fun hs => h2 (Or.inr hs)⟩
      · rintro ⟨rfl | h1, h2⟩
        · exact Or.inl rfl
        · by_cases hak : a = k
          · exact Or.inl hak
          · exact Or.inr ⟨h1, by simp [hak, h2]⟩

theorem nodup_dedupKeepFirstAux (seen l) : (dedupKeepFirstAux seen l).Nodup := by
  induction l generalizing seen with
  | nil => simp [dedupKeepFirstAux]
  | cons k ks ih =>
    by_cases hk : k ∈ seen
    · simpa [dedupKeepFirstAux, if_pos hk] using ih seen
    · simp only [dedupKeepFirstAux, if_neg hk, List.nodup_cons]
      refine ⟨fun hmem => ?_, ih _⟩
      exact (mem_dedupKeepFirstAux.mp hmem).2 (List.mem_cons_self _ _)

theorem mem_dedupKeepFirst {a : String} {l} : a ∈ dedupKeepFirst l ↔ a ∈ l := by
  simp [dedupKeepFirst, mem_dedupKeepFirstAux]

theorem nodup_dedupKeepFirst (l : List String) : (dedupKeepFirst l).Nodup :=
  nodup_dedupKeepFirstAux [] l

/-- First-seen deduplication and the (last-seen) Mathlib `dedup` keep the
same number of keys. -/
theorem length_dedupKeepFirst (l : List String) :
    (dedupKeepFirst l).length = l.dedup.length := by
  refine List.Perm.length_eq ?_
  refine (List.perm_ext_iff_of_nodup (nodup_dedupKeepFirst l) l.nodup_dedup).mpr ?_
  intro a
  rw [mem_dedupKeepFirst, List.mem_dedup]

theorem mem_groupKeys {k : String} {rows : List Row} :
    k ∈ groupKeys rows ↔ ∃ r ∈ rows, groupKey r = k := by
  simp [groupKeys, mem_dedupKeepFirst, eq_comm]

theorem nodup_groupKeys (rows : List Row) : (groupKeys rows).Nodup :=
  nodup_dedupKeepFirst _

@[simp] theorem applyOutcome_augru (out r) : (applyOutcome out r).augru = r.augru := rfl

@[simp] theorem applyOutcome_sold_to (out r) : (applyOutcome out r).sold_to = r.sold_to := rfl

@[simp] theorem applyOutcome_ship_to (out r) : (applyOutcome out r).ship_to = r.ship_to := rfl

@[simp] theorem applyOutcome_sales_order (out r) :
    (applyOutcome out r).sales_order = (groupOutcome out).1 := rfl

@[simp] theorem applyOutcome_status (out r) :
    (applyOutcome out r).status = (groupOutcome out).2 := rfl

@[simp] theorem groupKey_applyOutcome (out r) :
    groupKey (applyOutcome out r) = groupKey r := rfl

@[simp] theorem stripOutcome_applyOutcome (out r) :
    stripOutcome (applyOutcome out r) = stripOutcome r := rfl

@[simp] theorem groupKey_stripOutcome (r) : groupKey (stripOutcome r) = groupKey r := rfl

theorem mem_groupOf {rows : List Row} {k r} :
    r ∈ groupOf rows k ↔ r ∈ rows ∧ groupKey r = k := by
  simp [groupOf]

/-- Membership in the row list returned by `create_sales_orders`: exactly
the input rows, each rewritten with the outcome of its own group. -/
theorem mem_create_rows {bapi : List Row → BapiOutcome} {rows : List Row} {r' : Row} :
    r' ∈ (create_sales_orders bapi rows).rows ↔
      ∃ r ∈ rows, r' = applyOutcome (bapi (groupOf rows (groupKey r))) r := by
  simp only [create_sales_orders, List.mem_flatten, List.mem_map]
  constructor
  · rintro ⟨l, ⟨g, ⟨k, hk, rfl⟩, rfl⟩, hr⟩
    obtain ⟨r, hrg, rfl⟩ := List.mem_map.mp hr
    obtain ⟨hrrows, hkey⟩ := mem_groupOf.mp hrg
    exact ⟨r, hrrows, by rw [hkey]⟩
  · rintro ⟨r, hrrows, rfl⟩
    refine ⟨(groupOf rows (groupKey r)).map
      (applyOutcome (bapi (groupOf rows (groupKey r)))), ⟨groupOf rows (groupKey r),
      ⟨groupKey r, ?_, rfl⟩, rfl⟩, ?_⟩
    · exact mem_groupKeys.mpr ⟨r, hrrows, rfl⟩
    · exact List.mem_map_of_mem _ (mem_groupOf.mpr ⟨hrrows, rfl⟩)

/-- The `sales_order`/`status` pair of every output row is the outcome of the
call made for its own group. -/
theorem create_rows_outcome {bapi : List Row → BapiOutcome} {rows : List Row} {r' : Row}
    (h : r' ∈ (create_sales_orders bapi rows).rows) :
    r'.sales_order = (groupOutcome (bapi (groupOf rows (groupKey r')))).1 ∧
      r'.status = (groupOutcome (bapi (groupOf rows (groupKey r')))).2 := by
  obtain ⟨r, _, rfl⟩ := mem_create_rows.mp h
  rw [groupKey_applyOutcome]
  exact ⟨rfl, rfl⟩

/-- Splitting a list into the fibers of a nodup, covering key list is a
permutation of the list. -/
theorem flatten_fibers_perm (keys : List String) (l : List Row)
    (hnd : keys.Nodup) (hcov : ∀ r ∈ l, groupKey r ∈ keys) :
    ((keys.map fun k => l.filter fun r => groupKey r == k).flatten).Perm l := by
  induction keys generalizing l with
  | nil =>
    cases l with
    | nil => simp
    | cons r l => exact absurd (hcov r (List.mem_cons_self _ _)) (List.not_mem_nil _)
  | cons k ks ih =>
    obtain ⟨hk, hks⟩ := List.nodup_cons.mp hnd
    simp only [List.map_cons, List.flatten_cons]
    have hinner : ∀ a ∈ ks, (l.filter fun r => groupKey r == a) =
        ((l.filter fun r => !(groupKey r == k)).filter fun r => groupKey r == a) := by
      intro a ha
      rw [List.filter_filter]
      refine List.filter_congr fun r _ => ?_
      by_cases hra : groupKey r = a
      · have hak : ¬ a = k := fun h => hk (h ▸ ha)
        simp [hra, hak]
      · simp [hra]
    have hmapeq : (ks.map fun a => l.filter fun r => groupKey r == a) =
        ks.map fun a => (l.filter fun r => !(groupKey r == k)).filter
          fun r => groupKey r == a := List.map_congr_left hinner
    rw [hmapeq]
    have hcov2 : ∀ r ∈ l.filter fun r => !(groupKey r == k), groupKey r ∈ ks := by
      intro r hr
      obtain ⟨hrl, hrk⟩ := List.mem_filter.mp hr
      have := hcov r hrl
      simp only [List.mem_cons] at this
      rcases this with h | h
      · simp [h] at hrk
      · exact h
    exact List.Perm.trans (List.Perm.append_left _ (ih _ hks hcov2))
      (List.filter_append_perm _ l)

/-- The row list returned by `create_sales_orders` is a permutation of
the input rows, up to the `sales_order`/`status` fields it writes. -/
theorem create_rows_perm (bapi : List Row → BapiOutcome) (rows : List Row) :
    ((create_sales_orders bapi rows).rows.map stripOutcome).Perm
      (rows.map stripOutcome) := by
  have hmap : (create_sales_orders bapi rows).rows.map stripOutcome =
      ((groupKeys rows).map fun k =>
        (rows.filter fun r => groupKey r == k).map stripOutcome).flatten := by
    simp only [create_sales_orders, List.map_flatten, List.map_map]
    congr 1
    refine List.map_congr_left fun k _ => ?_
    simp [groupOf, Function.comp]
  rw [hmap]
  have hfib : ∀ k, (rows.filter fun r => groupKey r == k).map stripOutcome =
      (rows.map stripOutcome).filter fun r => groupKey r == k := by
    intro k
    rw [List.filter_map]
    congr 1
  rw [List.map_congr_left fun k _ => hfib k]
  refine flatten_fibers_perm _ _ (nodup_groupKeys rows) ?_
  intro r hr
  obtain ⟨r0, hr0, rfl⟩ := List.mem_map.mp hr
  rw [groupKey_stripOutcome]
  exact mem_groupKeys.mpr ⟨r0, hr0, rfl⟩

/-- Any outcome either marks the group `Created` or blanks the order
number. -/
theorem groupOutcome_cases (out : BapiOutcome) :
    (groupOutcome out).2 = "Created" ∨ (groupOutcome out).1 = "" := by
  cases out with
  | ok so =>
    simp only [groupOutcome]
    split
    · exact Or.inl rfl
    · exact Or.inr rfl
  | exn msg => exact Or.inr rfl

/-- `"Error: " + anything` starts with `Error`. -/
theorem pyStartsWith_error_concat (msg : String) :
    pyStartsWith ("Error: " ++ msg) "Error" = true := by
  simp only [pyStartsWith, String.data_append]
  rfl

/-- A string starting with `Error` is never accepted by the success test
of the outer loop. -/
theorem groupCreated_of_startsWith {s : String}
    (h : pyStartsWith s "Error" = true) : groupCreated (.ok s) = false := by
  simp [groupCreated, h]

/-- A string starting with `Error` is non-empty. -/
theorem ne_empty_of_startsWith_error {s : String}
    (h : pyStartsWith s "Error" = true) : s ≠ "" := by
  rintro rfl
  simp [pyStartsWith, List.isPrefixOf] at h

theorem length_numberLines (n : Nat) (l : List Row) :
    (numberLines n l).length = l.length := by
  induction l generalizing n with
  | nil => rfl
  | cons r rs ih => simp [numberLines, ih]

theorem get_numberLines (n : Nat) (l : List Row) (i : Nat)
    (h1 : i < (numberLines n l).length) (h2 : i < l.length) :
    (numberLines n l).get ⟨i, h1⟩ = mkOrderLine (n + (i + 1) * 10) (l.get ⟨i, h2⟩) := by
  induction l generalizing n i with
  | nil => exact absurd h2 (by simp)
  | cons r rs ih =>
    cases i with
    | zero => simp [numberLines, mkOrderLine]
    | succ j =>
      have harith : n + 10 + (j + 1) * 10 = n + (j + 1 + 1) * 10 := by ring
      simpa [numberLines, harith] using ih (n + 10) j (by
        simpa [numberLines] using h1) (by simpa using h2)

/-- The item loop equals the reference numbering of the filtered rows. -/
theorem buildOrderLines_eq_numberLines (n : Nat) (rows : List Row) :
    buildOrderLines n rows = numberLines n (rows.filter includeRow) := by
  induction rows generalizing n with
  | nil => rfl
  | cons r rs ih =>
    by_cases h : includeRow r
    · simp [buildOrderLines, h, List.filter_cons, numberLines, ih]
    · simp [buildOrderLines, h, List.filter_cons, ih]

theorem enrichRowReady_row_number (o2 : String → String → CCCall) (row : Row)
    (d : EquipDict) : (enrichRowReady o2 row d).row_number = row.row_number := rfl

theorem enrichRow_row_number (o1 : String → EquipCall) (o2 : String → String → CCCall)
    (row : Row) : (enrichRow o1 o2 row).row_number = row.row_number := by
  rw [enrichRow]
  split
  · rfl
  · split
    · rfl
    · split
      · rfl
      · exact enrichRowReady_row_number o2 row _

/-! ## Claims -/

/-- C1: for every input row list and every two rows `r1`, `r2` in the
output of `create_sales_orders`, if `r1` and `r2` have the same grouping
key (equal `augru`, `sold_to` and `ship_to`), then they agree on the
final `sales_order` and `status`: either both carry the order number
with status `Created`, or both carry `sales_order = ""` and the same
failure status — no group is ever partially applied. -/
theorem C1_group_atomicity (bapi : List Row → BapiOutcome) (rows : List Row)
    (r1 r2 : Row)
    (h1 : r1 ∈ (create_sales_orders bapi rows).rows)
    (h2 : r2 ∈ (create_sales_orders bapi rows).rows)
    (ha : r1.augru = r2.augru) (hs : r1.sold_to = r2.sold_to)
    (hh : r1.ship_to = r2.ship_to) :
    r1.sales_order = r2.sales_order ∧ r1.status = r2.status ∧
      (r1.status = "Created" ∨ r1.sales_order = "") := by
  have hkey : groupKey r1 = groupKey r2 := by simp [groupKey, ha, hs, hh]
  obtain ⟨hso1, hst1⟩ := create_rows_outcome h1
  obtain ⟨hso2, hst2⟩ := create_rows_outcome h2
  rw [hkey] at hso1 hst1
  refine ⟨hso1.trans hso2.symm, hst1.trans hst2.symm, ?_⟩
  rcases groupOutcome_cases (bapi (groupOf rows (groupKey r2))) with h | h
  · exact Or.inl (hst1.trans h)
  · exact Or.inr (hso1.trans h)

/-- C1 witness: a successful two-row group. -/
theorem C1_group_atomicity_witness :
    rowA1 ∈ (create_sales_orders bapiOk rowsA).rows ∧
    rowA2 ∈ (create_sales_orders bapiOk rowsA).rows ∧
    rowA1.sales_order = rowA2.sales_order ∧ rowA1.status = rowA2.status ∧
      (rowA1.status = "Created" ∨ rowA1.sales_order = "") :=
  ⟨by decide, by decide,
    (C1_group_atomicity bapiOk rowsA rowA1 rowA2 (by decide) (by decide)
      (by decide) (by decide) (by decide)).1,
    (C1_group_atomicity bapiOk rowsA rowA1 rowA2 (by decide) (by decide)
      (by decide) (by decide) (by decide)).2⟩

/-- C2 counterexample: `groups_processed` is the number of distinct
concatenated key strings, not of distinct `(augru, sold_to, ship_to)`
triples: the unescaped `|` join collides the two distinct triples of
`rowsPipe` into one group. -/
theorem C2_counter_distinct_triples :
    (create_sales_orders bapiOk rowsPipe).groups_processed = 1 ∧
    ((rowsPipe.map fun r => (r.augru, r.sold_to, r.ship_to)).dedup).length = 2 ∧
    (create_sales_orders bapiOk rowsPipe).groups_processed ≠
      ((rowsPipe.map fun r => (r.augru, r.sold_to, r.ship_to)).dedup).length :=
  ⟨by decide, by decide, by decide⟩

/-- C2 amended: for every input row list and backend behaviour,
`orders_created + orders_failed = groups_processed`, and
`groups_processed` equals the number of distinct concatenated grouping
key strings `augru|sold_to|ship_to` among the input rows (each group
increments exactly one of the two counters). -/
theorem C2_counter_sum (bapi : List Row → BapiOutcome) (rows : List Row) :
    (create_sales_orders bapi rows).orders_created +
        (create_sales_orders bapi rows).orders_failed =
      (create_sales_orders bapi rows).groups_processed ∧
    (create_sales_orders bapi rows).groups_processed =
      ((rows.map groupKey).dedup).length := by
  constructor
  · simp only [create_sales_orders]
    rw [← List.length_eq_length_filter_add
      (l := (groupKeys rows).map (groupOf rows)) (fun g => groupCreated (bapi g))]
    exact List.length_map _ _
  · exact length_dedupKeepFirst _

/-- C4: for every input row list and backend behaviour, each output
final `sales_order`/`status` of each row is determined solely by the
call outcome of its own group (so an exception while processing one group
marks only the rows of that group `sales_order = ""`, `status = "Error: " ++ msg`,
and the other groups are processed on their own), and the returned row
list still contains every input row exactly once (as a permutation, up
to the two fields the function writes). -/
theorem C4_group_isolation (bapi : List Row → BapiOutcome) (rows : List Row) :
    ((create_sales_orders bapi rows).rows.map stripOutcome).Perm
      (rows.map stripOutcome) ∧
    (∀ r' ∈ (create_sales_orders bapi rows).rows,
      r'.sales_order = (groupOutcome (bapi (groupOf rows (groupKey r')))).1 ∧
        r'.status = (groupOutcome (bapi (groupOf rows (groupKey r')))).2) ∧
    (∀ r' ∈ (create_sales_orders bapi rows).rows, ∀ msg,
      bapi (groupOf rows (groupKey r')) = .exn msg →
        r'.sales_order = "" ∧ r'.status = "Error: " ++ msg) := by
  refine ⟨create_rows_perm bapi rows, fun r' h => create_rows_outcome h,
    fun r' h msg hmsg => ?_⟩
  obtain ⟨hso, hst⟩ := create_rows_outcome h
  rw [hmsg] at hso hst
  exact ⟨hso, hst⟩

/-- C4 witness: a backend raising `boom` on the first of two groups
fails exactly the row of that group. -/
theorem C4_group_isolation_witness :
    rowB1 ∈ (create_sales_orders bapiB rowsB).rows ∧
    bapiB (groupOf rowsB (groupKey rowB1)) = .exn "boom" ∧
    rowB1.sales_order = "" ∧ rowB1.status = "Error: " ++ "boom" ∧
    (create_sales_orders bapiB rowsB).orders_created = 1 ∧
    (create_sales_orders bapiB rowsB).orders_failed = 1 :=
  ⟨by decide, by decide,
    ((C4_group_isolation bapiB rowsB).2.2 rowB1 (by decide) "boom" (by decide)).1,
    ((C4_group_isolation bapiB rowsB).2.2 rowB1 (by decide) "boom" (by decide)).2,
    by decide, by decide⟩

/-- C10: success is an in-band string prefix test, not a structured
result: (a) a group counts as created exactly when the inner call
returns a non-empty string not starting with `Error`; (b) a returned
string that does start with `Error` blanks `sales_order` and becomes
the `status` of every group row verbatim; (c) when the backend assigns an
order number with no Error/Abort message, the inner function commits and
returns that (trimmed) number as-is — even if it happens to start with
`Error`, in which case (b) applies although the commit has already been
issued; (d) `orders_created` counts exactly the accepted groups. -/
theorem C10_inband_error (bapi : List Row → BapiOutcome) (rows : List Row)
    (submit : OrderRequest → BapiResponse) (grows : List Row) (uid : String) :
    (∀ out, groupCreated out = true ↔
      ∃ s, out = BapiOutcome.ok s ∧ s ≠ "" ∧ pyStartsWith s "Error" = false) ∧
    (∀ r' ∈ (create_sales_orders bapi rows).rows, ∀ s,
      bapi (groupOf rows (groupKey r')) = .ok s → pyStartsWith s "Error" = true →
        r'.sales_order = "" ∧ r'.status = s) ∧
    ((∀ m ∈ (submit (buildOrderRequest grows uid)).ret,
        ¬(m.type_ = "E" ∨ m.type_ = "A")) →
      pyStrip (submit (buildOrderRequest grows uid)).salesdocument ≠ "" →
      call_bapi_salesorder_create submit grows uid =
        (pyStrip (submit (buildOrderRequest grows uid)).salesdocument, true)) ∧
    (create_sales_orders bapi rows).orders_created =
      (((groupKeys rows).map (groupOf rows)).filter
        fun g => groupCreated (bapi g)).length := by
  refine ⟨?_, ?_, ?_, rfl⟩
  · intro out
    cases out with
    | ok s =>
      simp only [groupCreated]
      split
      · rename_i hcond
        exact iff_of_true rfl ⟨s, rfl, hcond.1, by simpa using hcond.2⟩
      · rename_i hcond
        refine iff_of_false (by simp) ?_
        rintro ⟨t, heq, hne, hsw⟩
        cases heq
        exact hcond ⟨hne, by simp [hsw]⟩
    | exn m =>
      refine iff_of_false (by simp [groupCreated]) ?_
      rintro ⟨t, heq, -, -⟩
      cases heq
  · intro r' h s hcall hsw
    obtain ⟨hso, hst⟩ := create_rows_outcome h
    rw [hcall] at hso hst
    have hne := ne_empty_of_startsWith_error hsw
    simp only [groupOutcome, hsw] at hso hst
    rw [if_neg (by simp)] at hso hst
    exact ⟨hso, by simpa [hne] using hst⟩
  · intro hnomsg hne
    simp only [call_bapi_salesorder_create]
    have hfind : (submit (buildOrderRequest grows uid)).ret.find?
        (fun ret => ret.type_ == "E" || ret.type_ == "A") = none := by
      rw [List.find?_eq_none]
      intro m hm
      have := hnomsg m hm
      simp only [Bool.or_eq_true, beq_iff_eq]
      tauto
    rw [hfind]
    simp [hne]

/-- C10 witness: a backend-assigned order number `Error999` is committed
by the inner call, then treated as a failure status by the outer loop. -/
theorem C10_inband_error_witness :
    call_bapi_salesorder_create submitErr rowsC "u1" = ("Error999", true) ∧
    rowC1 ∈ (create_sales_orders bapiErr rowsC).rows ∧
    rowC1.sales_order = "" ∧ rowC1.status = "Error999" ∧
    (create_sales_orders bapiErr rowsC).orders_created = 0 := by
  refine ⟨?_, by decide, ?_, ?_, by decide⟩
  · have h := (C10_inband_error bapiErr rowsC submitErr rowsC "u1").2.2.1
      (by decide) (by decide)
    simpa using h
  · exact ((C10_inband_error bapiErr rowsC submitErr rowsC "u1").2.1 rowC1
      (by decide) "Error999" (by decide) (by decide)).1
  · exact ((C10_inband_error bapiErr rowsC submitErr rowsC "u1").2.1 rowC1
      (by decide) "Error999" (by decide) (by decide)).2

/-- `call_bapi_salesorder_create`, rewritten by cases on the `RETURN`
table scan. -/
theorem call_bapi_eq (submit : OrderRequest → BapiResponse) (grows : List Row)
    (uid : String) :
    call_bapi_salesorder_create submit grows uid =
      match (submit (buildOrderRequest grows uid)).ret.find?
          (fun ret => ret.type_ == "E" || ret.type_ == "A") with
      | some ret => ("Error: " ++ ret.message.getD "Unknown error", false)
      | none =>
        if pyStrip (submit (buildOrderRequest grows uid)).salesdocument ≠ "" then
          (pyStrip (submit (buildOrderRequest grows uid)).salesdocument, true)
        else ("Error: No sales order number returned", false) := rfl

/-- C5: for every group submission, an Error/Abort entry in the
`RETURN` table of the response fails the whole group — the first such message
becomes the result (order number field left empty) and no commit is
issued, even when an order number is present; the commit is issued if
and only if no such message exists and the trimmed order number is
non-empty, in which case that number is returned; and a group can only
be reported created when the commit was issued. -/
theorem C5_commit_discipline (submit : OrderRequest → BapiResponse) (grows : List Row)
    (uid : String) :
    ((∃ m ∈ (submit (buildOrderRequest grows uid)).ret, m.type_ = "E" ∨ m.type_ = "A") →
      (call_bapi_salesorder_create submit grows uid).2 = false ∧
      ∃ m, (submit (buildOrderRequest grows uid)).ret.find?
          (fun ret => ret.type_ == "E" || ret.type_ == "A") = some m ∧
        (call_bapi_salesorder_create submit grows uid).1 =
          "Error: " ++ m.message.getD "Unknown error") ∧
    ((call_bapi_salesorder_create submit grows uid).2 = true ↔
      (∀ m ∈ (submit (buildOrderRequest grows uid)).ret,
        ¬(m.type_ = "E" ∨ m.type_ = "A")) ∧
      pyStrip (submit (buildOrderRequest grows uid)).salesdocument ≠ "") ∧
    ((call_bapi_salesorder_create submit grows uid).2 = true →
      (call_bapi_salesorder_create submit grows uid).1 =
        pyStrip (submit (buildOrderRequest grows uid)).salesdocument) ∧
    (groupCreated (.ok (call_bapi_salesorder_create submit grows uid).1) = true →
      (call_bapi_salesorder_create submit grows uid).2 = true) := by
  rcases hfind : (submit (buildOrderRequest grows uid)).ret.find?
      (fun ret => ret.type_ == "E" || ret.type_ == "A") with - | m
  · have hnone : ∀ m ∈ (submit (buildOrderRequest grows uid)).ret,
        ¬(m.type_ = "E" ∨ m.type_ = "A") := by
      intro m hm
      have := List.find?_eq_none.mp hfind m hm
      simp only [Bool.or_eq_true, beq_iff_eq] at this
      tauto
    by_cases hne : pyStrip (submit (buildOrderRequest grows uid)).salesdocument ≠ ""
    · have hcall : call_bapi_salesorder_create submit grows uid =
          (pyStrip (submit (buildOrderRequest grows uid)).salesdocument, true) := by
        rw [call_bapi_eq, hfind]
        simp [hne]
      rw [hcall]
      refine ⟨?_, iff_of_true rfl ⟨hnone, hne⟩, fun _ => rfl, fun _ => rfl⟩
      rintro ⟨m, hm, hEA⟩
      exact absurd hEA (hnone m hm)
    · have hcall : call_bapi_salesorder_create submit grows uid =
          ("Error: No sales order number returned", false) := by
        rw [call_bapi_eq, hfind]
        simp only [if_neg hne]
      rw [hcall]
      refine ⟨?_, iff_of_false (by simp) fun h => hne h.2, fun h => absurd h (by simp),
        fun h => ?_⟩
      · rintro ⟨m, hm, hEA⟩
        exact absurd hEA (hnone m hm)
      · rw [groupCreated_of_startsWith (by decide)] at h
        cases h
  · have hcall : call_bapi_salesorder_create submit grows uid =
        ("Error: " ++ m.message.getD "Unknown error", false) := by
      rw [call_bapi_eq, hfind]
    rw [hcall]
    refine ⟨fun _ => ⟨rfl, m, hfind, rfl⟩, ?_, fun h => absurd h (by simp), fun h => ?_⟩
    · refine iff_of_false (by simp) fun hcon => ?_
      have hmem := List.mem_of_find?_eq_some hfind
      have hp := List.find?_some hfind
      simp only [Bool.or_eq_true, beq_iff_eq] at hp
      exact hcon.1 m hmem hp
    · rw [groupCreated_of_startsWith (pyStartsWith_error_concat _)] at h
      cases h

/-- C5 witness: an Abort message suppresses the order number and the
commit; the same response without the message commits. -/
theorem C5_commit_discipline_witness :
    (call_bapi_salesorder_create
        (fun _ => { salesdocument := "4500000777",
                    ret := [{ type_ := "A", message := some "order blocked" }] })
        rowsC "u1").2 = false ∧
    (call_bapi_salesorder_create
        (fun _ => { salesdocument := "4500000777",
                    ret := [{ type_ := "A", message := some "order blocked" }] })
        rowsC "u1").1 = "Error: order blocked" ∧
    (call_bapi_salesorder_create (fun _ => { salesdocument := "4500000777", ret := [] })
        rowsC "u1").2 = true := by
  refine ⟨?_, ?_, ?_⟩
  · exact ((C5_commit_discipline
      (fun _ => { salesdocument := "4500000777",
                  ret := [{ type_ := "A", message := some "order blocked" }] })
      rowsC "u1").1 ⟨{ type_ := "A", message := some "order blocked" },
        by decide, by decide⟩).1
  · obtain ⟨-, m, hm, hres⟩ := (C5_commit_discipline
      (fun _ => { salesdocument := "4500000777",
                  ret := [{ type_ := "A", message := some "order blocked" }] })
      rowsC "u1").1 ⟨{ type_ := "A", message := some "order blocked" },
        by decide, by decide⟩
    have h3 : some ({ type_ := "A", message := some "order blocked" } : RetMsg) = some m :=
      hm
    cases h3
    exact hres
  · exact (C5_commit_discipline (fun _ => { salesdocument := "4500000777", ret := [] })
      rowsC "u1").2.1.mpr ⟨by decide, by decide⟩

/-- C3: the spec example.  The two rows form the single group
`"A1|1|2"`; only the first becomes an order line, numbered `000010`;
against a backend answering `4500000123` with no messages the inner call
commits and returns the number, and both rows — including the excluded
zero-quantity row — end `Created` with that order number, with counters
`(1, 0, 1)`. -/
theorem C3_spec_example :
    groupKeys [rowEx1, rowEx2] = ["A1|1|2"] ∧
    ((buildOrderRequest [rowEx1, rowEx2] "requester").lines.map
      fun l => l.item.itm_number) = ["000010"] ∧
    ((buildOrderRequest [rowEx1, rowEx2] "requester").lines.map
      fun l => l.item.material) = ["M1"] ∧
    call_bapi_salesorder_create submitEx [rowEx1, rowEx2] "requester" =
      ("4500000123", true) ∧
    create_sales_orders bapiEx [rowEx1, rowEx2] =
      { success := true, orders_created := 1, orders_failed := 0, groups_processed := 1,
        rows := [{ rowEx1 with sales_order := "4500000123", status := "Created" },
                 { rowEx2 with sales_order := "4500000123", status := "Created" }] } := by
  refine ⟨by decide, by decide, by decide, by decide, by decide⟩

/-- C9: within every submitted order the item loop numbers exactly the
rows whose trimmed material is non-empty and whose quantity is positive;
the `i`-th included row (0-based) gets item number `(i+1)*10` rendered
zero-padded to six characters — 10, 20, 30, … strictly increasing in
inclusion order — and exactly one schedule line numbered `0001` with the
same item number and the quantity of the row; skipped rows consume no
number. -/
theorem C9_item_numbering (rows : List Row) :
    (buildOrderLines 0 rows).length = (rows.filter includeRow).length ∧
    ∀ i (h1 : i < (buildOrderLines 0 rows).length)
      (h2 : i < (rows.filter includeRow).length),
      (buildOrderLines 0 rows).get ⟨i, h1⟩ =
          mkOrderLine ((i + 1) * 10) ((rows.filter includeRow).get ⟨i, h2⟩) ∧
        ((buildOrderLines 0 rows).get ⟨i, h1⟩).item.itm_number =
          zfill (toString ((i + 1) * 10)) 6 ∧
        ((buildOrderLines 0 rows).get ⟨i, h1⟩).sched.sched_line = "0001" ∧
        ((buildOrderLines 0 rows).get ⟨i, h1⟩).sched.itm_number =
          ((buildOrderLines 0 rows).get ⟨i, h1⟩).item.itm_number ∧
        ((buildOrderLines 0 rows).get ⟨i, h1⟩).sched.req_qty =
          ((rows.filter includeRow).get ⟨i, h2⟩).material_qty := by
  have hlen : (buildOrderLines 0 rows).length = (rows.filter includeRow).length := by
    rw [buildOrderLines_eq_numberLines, length_numberLines]
  refine ⟨hlen, fun i h1 h2 => ?_⟩
  have hget : (buildOrderLines 0 rows).get ⟨i, h1⟩ =
      mkOrderLine ((i + 1) * 10) ((rows.filter includeRow).get ⟨i, h2⟩) := by
    have heq := buildOrderLines_eq_numberLines 0 rows
    have h1n : i < (numberLines 0 (rows.filter includeRow)).length := by
      rw [← buildOrderLines_eq_numberLines]
      exact h1
    have hmid := get_numberLines 0 (rows.filter includeRow) i h1n h2
    rw [Nat.zero_add] at hmid
    exact (List.get_of_eq heq ⟨i, h1⟩).trans hmid
  refine ⟨hget, by rw [hget]; rfl, by rw [hget]; rfl, by rw [hget]; rfl, by rw [hget]; rfl⟩

/-- C9 witness: the rows of the spec example, first included row numbered
`000010` with its single `0001` schedule line. -/
theorem C9_item_numbering_witness :
    (buildOrderLines 0 [rowEx1, rowEx2]).length =
      ([rowEx1, rowEx2].filter includeRow).length ∧
    ((buildOrderLines 0 [rowEx1, rowEx2]).get ⟨0, by decide⟩).item.itm_number =
      zfill (toString ((0 + 1) * 10)) 6 ∧
    ((buildOrderLines 0 [rowEx1, rowEx2]).get ⟨0, by decide⟩).sched.sched_line = "0001" :=
  ⟨(C9_item_numbering [rowEx1, rowEx2]).1,
    ((C9_item_numbering [rowEx1, rowEx2]).2 0 (by decide) (by decide)).2.1,
    ((C9_item_numbering [rowEx1, rowEx2]).2 0 (by decide) (by decide)).2.2.1⟩

/-- C6: enrichment returns one output row per input row, in the same
order (the `i`-th output is the enrichment of the `i`-th input), hence
an equal `row_number` sequence and multiset; no row is ever dropped.
(That it never raises is the totality of `enrichRow`: every failure of
the oracles is converted to a `status` string.) -/
theorem C6_enrich_shape (o1 : String → EquipCall) (o2 : String → String → CCCall)
    (rows : List Row) :
    (enrich_equipment_data o1 o2 rows).length = rows.length ∧
    (enrich_equipment_data o1 o2 rows).map Row.row_number = rows.map Row.row_number ∧
    enrich_equipment_data o1 o2 rows = rows.map (enrichRow o1 o2) := by
  refine ⟨by simp [enrich_equipment_data], ?_, rfl⟩
  simp only [enrich_equipment_data, List.map_map]
  exact List.map_congr_left fun r _ => enrichRow_row_number o1 o2 r

/-- C7: a row whose equipment id trims to empty gets status exactly
`Error: No Equipment ID` and nothing else: the output row equals the
input row with only the status replaced, every enrichment field left
untouched. -/
theorem C7_no_equipment_id (o1 : String → EquipCall) (o2 : String → String → CCCall)
    (rows : List Row) (i : Nat) (h1 : i < rows.length)
    (h2 : i < (enrich_equipment_data o1 o2 rows).length)
    (he : pyStrip (rows.get ⟨i, h1⟩).equipment_id = "") :
    (enrich_equipment_data o1 o2 rows).get ⟨i, h2⟩ =
      { rows.get ⟨i, h1⟩ with status := "Error: No Equipment ID" } := by
  simp only [List.get_eq_getElem] at he ⊢
  simp only [enrich_equipment_data, List.getElem_map]
  rw [enrichRow, if_pos he]

/-- C7 witness: a row whose equipment id is all whitespace. -/
theorem C7_no_equipment_id_witness :
    pyStrip (([({ equipment_id := "  " } : Row)].get ⟨0, by decide⟩).equipment_id) = "" ∧
    (enrich_equipment_data equipOracleExn ccOracleBoom
        [({ equipment_id := "  " } : Row)]).get ⟨0, by decide⟩ =
      { ([({ equipment_id := "  " } : Row)].get ⟨0, by decide⟩) with
        status := "Error: No Equipment ID" } :=
  ⟨by decide, C7_no_equipment_id equipOracleExn ccOracleBoom
    [({ equipment_id := "  " } : Row)] 0 (by decide) (by decide) (by decide)⟩

/-- C8: when the row reaches the cost-center step (non-empty cost
center and sales org) and the lookup raises or returns no record, the
failure is swallowed: the lookup yields `("", "")`, and the row still
completes with `augru = ""`, `cost_center_text = ""`, `status = "Ready"`. -/
theorem C8_costcenter_softfail (o1 : String → EquipCall) (o2 : String → String → CCCall)
    (row : Row) (d : EquipDict) (msg : String)
    (h1 : pyStrip row.equipment_id ≠ "")
    (h2 : call_bapi_equi_details o1 (pyStrip row.equipment_id) = .ok d)
    (h3 : d.error.getD "" = "")
    (h4 : d.cost_center ≠ "")
    (h5 : salesOrgOf d ≠ "")
    (h6 : o2 (zfill d.cost_center 10) (salesOrgOf d) = CCCall.exn msg ∨
          o2 (zfill d.cost_center 10) (salesOrgOf d) = CCCall.ok []) :
    call_z_matreq_cost_center o2 d.cost_center (salesOrgOf d) = ("", "") ∧
    (enrichRow o1 o2 row).augru = "" ∧
    (enrichRow o1 o2 row).cost_center_text = "" ∧
    (enrichRow o1 o2 row).status = "Ready" := by
  have hz : call_z_matreq_cost_center o2 d.cost_center (salesOrgOf d) = ("", "") := by
    rcases h6 with h | h <;> simp [call_z_matreq_cost_center, h]
  have hrow : enrichRow o1 o2 row = enrichRowReady o2 row d := by
    rw [enrichRow, if_neg h1, h2]
    simp [h3]
  have hready : (enrichRowReady o2 row d).augru = "" ∧
      (enrichRowReady o2 row d).cost_center_text = "" ∧
      (enrichRowReady o2 row d).status = "Ready" := by
    rw [enrichRowReady]
    simp [h4, h5, hz]
  exact ⟨hz, by rw [hrow]; exact hready.1, by rw [hrow]; exact hready.2.1,
    by rw [hrow]; exact hready.2.2⟩

/-- C8 witness: equipment `US01`/`CC1`, cost-center lookup raising
`boom`. -/
theorem C8_costcenter_softfail_witness :
    (enrichRow equipOracleA ccOracleBoom { equipment_id := "E1" }).augru = "" ∧
    (enrichRow equipOracleA ccOracleBoom { equipment_id := "E1" }).cost_center_text = "" ∧
    (enrichRow equipOracleA ccOracleBoom { equipment_id := "E1" }).status = "Ready" :=
  (C8_costcenter_softfail equipOracleA ccOracleBoom { equipment_id := "E1" }
    { error := none, plant := "US01", cost_center := "CC1", company_code := "" } "boom"
    (by decide) rfl (by decide) (by decide) (by decide) (Or.inl (by decide))).2

end Saleorder
